import Mathlib

/-!
Verification development for the lutonai admin interface.

Shallow embedding of the pieces of the repository that the specification
talks about:

* `src/lib/cloudinary.ts` — the upload bridge `uploadToCloudinary`,
  a promise wrapper around the media host's callback-based upload stream;
* `src/app/admin/events/page.tsx` — the admin events page:
  `filteredEvents` (client-side search filter), `fetchEvents` and
  `handleDeleteConfirm` (delete confirmation flow);
* the sponsor-creation form (`createSponsorSchema`) — the zod validation
  schema for the sponsor form, in particular its logo attachment rules.

Files are byte lists, JS strings are Lean `String`s, the host's callback
arguments are `Option`s (JS `null`/`undefined` become `none`), and the
promise's settlement is computed from the list of settle actions the
executor and callback perform (a promise settles with the first
`resolve`/`reject` call; with no call it never settles).
-/

namespace Lutonai

/-! ## Upload bridge: `src/lib/cloudinary.ts` -/

/-- A JS `File` as the bridge sees it: its byte content (via
`file.arrayBuffer()`), and its declared MIME type.  `file.size` is the
number of bytes. -/
structure JSFile where
  bytes : List Nat
  mimeType : String
  deriving DecidableEq, Repr

/-- `file.size`. -/
def JSFile.size (f : JSFile) : Nat := f.bytes.length

/-- The host's error value (`UploadApiErrorResponse`): carried opaquely by
the bridge, which never inspects it. -/
structure UploadApiError where
  message : String
  http_code : Nat
  deriving DecidableEq, Repr

/-- The host's success value (`UploadApiResponse`): the bridge reads only
`secure_url`. -/
structure UploadApiResponse where
  public_id : String
  secure_url : String
  deriving DecidableEq, Repr

/-- One transmission to the media host: the options object passed to
`upload_stream` (only `folder` is set) and the byte buffer written by
`.end(buffer)`. -/
structure Transmission where
  folder : String
  buffer : List Nat
  deriving DecidableEq, Repr

/-- A settling call made on the promise: `resolve(url)` or `reject(err)`. -/
inductive SettleAction where
  | resolve : String → SettleAction
  | reject : UploadApiError → SettleAction
  deriving DecidableEq, Repr

/-- How a promise ends up: settled by its first settle action, or never
settled when no settle action is ever performed. -/
inductive Settlement where
  | resolved : String → Settlement
  | rejected : UploadApiError → Settlement
  | unsettled : Settlement
  deriving DecidableEq, Repr

/-- Promise semantics: the first `resolve`/`reject` wins; later calls are
ignored; no call at all means the promise never settles. -/
def promiseSettle : List SettleAction → Settlement
  | [] => .unsettled
  | .resolve u :: _ => .resolved u
  | .reject e :: _ => .rejected e

/-- The host's single invocation of the completion callback: the `error`
and `result` arguments (`none` models `null`/`undefined`). -/
structure HostCallback where
  error : Option UploadApiError
  result : Option UploadApiResponse
  deriving DecidableEq, Repr

/-- The body of the completion callback in `uploadToCloudinary`:

```
(error, result) => {
    if (error) reject(error)
    else resolve(result.secure_url)
}
```

as the list of settle actions it performs.  When `error` is set it calls
`reject(error)`.  Otherwise it evaluates `result.secure_url`: if `result`
is defined this calls `resolve` with that string; if `result` is
`undefined` the property access throws inside the callback before any
settle call, so no settle action is performed. -/
def uploadCallbackActions (cb : HostCallback) : List SettleAction :=
  match cb.error with
  | some e => [.reject e]
  | none =>
    match cb.result with
    | some r => [.resolve r.secure_url]
    | none => []

/-- The observable effects of one run of `uploadToCloudinary file`:

```
const arrayBuffer = await file.arrayBuffer()
const buffer = Buffer.from(arrayBuffer)
return new Promise((resolve, reject) => {
    cloudinary.uploader.upload_stream({ folder: "project-logos" }, cb).end(buffer)
})
```

* `buffer` — the in-memory copy of the file's bytes made before
  transmission (`Buffer.from(await file.arrayBuffer())`);
* `transmissions` — the uploads issued to the host (exactly one
  `upload_stream` call, fed the whole buffer by `.end(buffer)`);
* `settleActions` / `settlement` — what the returned promise does, given
  the host's one callback invocation `cb`.

The surrounding `try`/`catch` only logs and rethrows the same error, so it
does not change any outcome. -/
structure BridgeRun where
  buffer : List Nat
  transmissions : List Transmission
  settleActions : List SettleAction
  settlement : Settlement
  deriving DecidableEq, Repr

/-- `uploadToCloudinary`, parametrised by the host's callback invocation
`cb` for this upload. -/
def uploadToCloudinary (file : JSFile) (cb : HostCallback) : BridgeRun :=
  let buffer := file.bytes
  let actions := uploadCallbackActions cb
  { buffer := buffer
    transmissions := [{ folder := "project-logos", buffer := buffer }]
    settleActions := actions
    settlement := promiseSettle actions }

/-! ## Admin events page: `src/app/admin/events/page.tsx` -/

/-- The `Event` record of the admin events page.  Only the scalar fields
used by the page's logic are carried; the remaining optional display
fields (venue, capacity, …) play no role in filtering or deletion. -/
structure Event where
  _id : String
  title : String
  description : String
  startDateTime : String
  endDateTime : String
  eventType : String
  status : String
  deriving DecidableEq, Repr

/-- `String.prototype.toLowerCase()` on the strings this page handles:
lower-case each character (ASCII letters, as `Char.toLower` does). -/
def jsToLowerCase (s : String) : String := ⟨s.data.map Char.toLower⟩

/-- Does `hay` start with `needle`? (helper for the JS `includes` scan). -/
def listStartsWith : List Char → List Char → Bool
  | _, [] => true
  | [], _ :: _ => false
  | c :: cs, d :: ds => c == d && listStartsWith cs ds

/-- The linear scan behind `String.prototype.includes`: try each suffix of
`hay` for `needle` as a leading segment. -/
def listIncludes : List Char → List Char → Bool
  | [], needle => needle.isEmpty
  | c :: cs, needle => listStartsWith (c :: cs) needle || listIncludes cs needle

/-- `s.includes(sub)`. -/
def jsIncludes (s sub : String) : Bool := listIncludes s.data sub.data

/-- The filter predicate of the page:
`event.title.toLowerCase().includes(searchQuery.toLowerCase()) ||
 event.description.toLowerCase().includes(searchQuery.toLowerCase())`. -/
def eventMatches (searchQuery : String) (event : Event) : Bool :=
  jsIncludes (jsToLowerCase event.title) (jsToLowerCase searchQuery) ||
  jsIncludes (jsToLowerCase event.description) (jsToLowerCase searchQuery)

/-- `filteredEvents = events.filter(event => …)`. -/
def filteredEvents (searchQuery : String) (events : List Event) : List Event :=
  events.filter (eventMatches searchQuery)

/-- A user-facing toast notification. -/
inductive Toast where
  | success : String → Toast
  | error : String → Toast
  deriving DecidableEq, Repr

/-- The outcome of a `fetch` call as the page's handlers observe it: a
`Response` whose `ok` flag is `true` or `false`, or a thrown network
error. -/
inductive FetchResult where
  | response : Bool → FetchResult
  | networkError : FetchResult
  deriving DecidableEq, Repr

/-- The `deleteModal` state:
`{ isOpen: false, eventId: "", eventTitle: "" }` initially. -/
structure DeleteModalState where
  isOpen : Bool
  eventId : String
  eventTitle : String
  deriving DecidableEq, Repr

/-- `fetchEvents`: `GET /api/admin/events`; on an ok response the JSON
body `data` replaces the `events` state; a non-ok response throws
`"Failed to fetch events"`, and the catch block logs and toasts
"Failed to load events", leaving `events` unchanged.  Returns the new
`events` state and the toasts shown.  (The `isLoading` flag is toggled on
and back off around the call and is not modelled.) -/
def fetchEvents (resp : FetchResult) (data : List Event)
    (events : List Event) : List Event × List Toast :=
  match resp with
  | .response true => (data, [])
  | .response false => (events, [.error "Failed to load events"])
  | .networkError => (events, [.error "Failed to load events"])

/-- The result of one run of `handleDeleteConfirm`. -/
structure DeleteRun where
  /-- `true` iff the handler called `fetchEvents()` (refetch of the full
  collection). -/
  refetched : Bool
  /-- The `events` state after the run (incl. the refetch when issued). -/
  events : List Event
  /-- The toasts shown, in order. -/
  toasts : List Toast
  /-- The `deleteModal` state after the run. -/
  deleteModal : DeleteModalState
  deriving DecidableEq, Repr

/-- `handleDeleteConfirm`:

```
try {
    const response = await fetch(`/api/events/ID`, { method: "DELETE" })
    if (!response.ok) throw new Error("Failed to delete event")
    toast.success("Event deleted successfully")
    fetchEvents()
} catch (error) {
    toast.error("Error deleting event")
} finally {
    setDeleteModal({ isOpen: false, eventId: "", eventTitle: "" })
}
```

`deleteResp` is the DELETE call's outcome; when the handler refetches,
`refetchResp`/`refetchData` are the GET call's outcome and JSON body.
`events` is the in-memory list before the run. -/
def handleDeleteConfirm (deleteResp : FetchResult)
    (refetchResp : FetchResult) (refetchData : List Event)
    (events : List Event) : DeleteRun :=
  let closed : DeleteModalState := { isOpen := false, eventId := "", eventTitle := "" }
  match deleteResp with
  | .response true =>
    let refetch := fetchEvents refetchResp refetchData events
    { refetched := true
      events := refetch.1
      toasts := .success "Event deleted successfully" :: refetch.2
      deleteModal := closed }
  | .response false =>
    { refetched := false, events := events
      toasts := [.error "Error deleting event"], deleteModal := closed }
  | .networkError =>
    { refetched := false, events := events
      toasts := [.error "Error deleting event"], deleteModal := closed }

/-! ## Sponsor form validation: `createSponsorSchema` -/

/-- A member of a `FileList` as the zod logo checks see it: its size in
bytes and its declared MIME type. -/
structure FileMeta where
  size : Nat
  mimeType : String
  deriving DecidableEq, Repr

/-- JS `x <= n` where `x` is `files?.[0]?.size`: comparing `undefined`
with a number is `false`. -/
def jsLeNat (x : Option Nat) (n : Nat) : Bool :=
  match x with
  | some v => v ≤ n
  | none => false

/-- First refinement of `logo`: `files?.length === 1`
("Logo is required"). -/
def logoCountOk (files : List FileMeta) : Bool := files.length == 1

/-- Second refinement: `files?.[0]?.size <= 2 * 1024 * 1024`
("Logo must be less than 2MB"). -/
def logoSizeOk (files : List FileMeta) : Bool :=
  jsLeNat (files.head?.map (·.size)) (2 * 1024 * 1024)

/-- Third refinement:
`["image/jpeg", "image/jpg", "image/png"].includes(files?.[0]?.type)`
(`includes(undefined)` is `false`; "Only .jpg, .jpeg, and .png files are
allowed"). -/
def logoTypeOk (files : List FileMeta) : Bool :=
  match files.head? with
  | some f => ["image/jpeg", "image/jpg", "image/png"].contains f.mimeType
  | none => false

/-- The structured error messages the `logo` field's refinement chain
produces: each failing refinement contributes its message. -/
def logoErrors (files : List FileMeta) : List String :=
  (if logoCountOk files then [] else ["Logo is required"]) ++
  (if logoSizeOk files then [] else ["Logo must be less than 2MB"]) ++
  (if logoTypeOk files then [] else ["Only .jpg, .jpeg, and .png files are allowed"])

/-- The schema accepts the `logo` field iff all three refinements pass.
`zodResolver(createSponsorSchema)` blocks `onSubmit` (and hence the POST
that would reach the upload bridge) unless this holds. -/
def logoAccepted (files : List FileMeta) : Bool :=
  logoCountOk files && logoSizeOk files && logoTypeOk files

/-! ## Helper lemmas -/

/-- The `includes` scan finds the empty needle in any haystack. -/
theorem listIncludes_nil (hay : List Char) : listIncludes hay [] = true := by
  cases hay with
  | nil => rfl
  | cons c cs => simp [listIncludes, listStartsWith]

/-- The logo refinement chain produces no error message iff every
refinement passes. -/
theorem logoErrors_eq_nil_iff (files : List FileMeta) :
    logoErrors files = [] ↔ logoAccepted files = true := by
  unfold logoErrors logoAccepted
  cases h1 : logoCountOk files <;> cases h2 : logoSizeOk files <;>
    cases h3 : logoTypeOk files <;> simp

/-! ## Claims -/

/-- C1 (counterexample): the claim "every invocation settles with exactly
one outcome" is false as stated: when the host invokes the callback with a
null error and an undefined result, this concrete invocation performs no
settle action and settles with neither a resolution nor a rejection. -/
theorem uploadToCloudinary_neither_outcome_cex :
    (uploadToCloudinary ⟨[0], "image/png"⟩ ⟨none, none⟩).settleActions = [] ∧
    (uploadToCloudinary ⟨[0], "image/png"⟩ ⟨none, none⟩).settlement =
      Settlement.unsettled := by
  constructor <;> rfl

/-- C1 (amended): for every invocation of the upload bridge in which the
host invokes the completion callback with an error or a defined result,
the promise performs exactly one settle action — a single resolution with
a reference string or a single rejection — so it settles with exactly one
outcome: never both and never neither. -/
theorem uploadToCloudinary_exactly_one_outcome (file : JSFile)
    (cb : HostCallback) (h : cb.error.isSome ∨ cb.result.isSome) :
    ((∃ u, (uploadToCloudinary file cb).settleActions = [SettleAction.resolve u]) ∨
     (∃ e, (uploadToCloudinary file cb).settleActions = [SettleAction.reject e])) ∧
    (uploadToCloudinary file cb).settlement ≠ Settlement.unsettled := by
  obtain ⟨er, res⟩ := cb
  cases er with
  | some e =>
    exact ⟨Or.inr ⟨e, rfl⟩, by
      simp [uploadToCloudinary, uploadCallbackActions, promiseSettle]⟩
  | none =>
    cases res with
    | some r =>
      exact ⟨Or.inl ⟨r.secure_url, rfl⟩, by
        simp [uploadToCloudinary, uploadCallbackActions, promiseSettle]⟩
    | none => simp at h

/-- C1 (witness): a concrete successful invocation satisfying the
precondition, settling with exactly one outcome. -/
theorem uploadToCloudinary_exactly_one_outcome_witness :
    ((∃ u, (uploadToCloudinary ⟨[7, 7], "image/png"⟩
        ⟨none, some ⟨"pid", "https://cdn.example/x.png"⟩⟩).settleActions =
          [SettleAction.resolve u]) ∨
     (∃ e, (uploadToCloudinary ⟨[7, 7], "image/png"⟩
        ⟨none, some ⟨"pid", "https://cdn.example/x.png"⟩⟩).settleActions =
          [SettleAction.reject e])) ∧
    (uploadToCloudinary ⟨[7, 7], "image/png"⟩
        ⟨none, some ⟨"pid", "https://cdn.example/x.png"⟩⟩).settlement ≠
      Settlement.unsettled :=
  uploadToCloudinary_exactly_one_outcome _ _ (Or.inr rfl)

/-- C2: for every successful host response the bridge resolves with
exactly the `secure_url` string of that response, and the destination
category transmitted to the host is "project-logos". -/
theorem uploadToCloudinary_resolves_secure_url (file : JSFile)
    (r : UploadApiResponse) (cb : HostCallback)
    (he : cb.error = none) (hr : cb.result = some r) :
    (uploadToCloudinary file cb).settlement = Settlement.resolved r.secure_url ∧
    ∀ t ∈ (uploadToCloudinary file cb).transmissions, t.folder = "project-logos" := by
  refine ⟨?_, ?_⟩
  · simp [uploadToCloudinary, uploadCallbackActions, promiseSettle, he, hr]
  · intro t ht
    simp [uploadToCloudinary] at ht
    simp [ht]

/-- C2 (witness): the concrete scenario of the spec — a 10-byte payload
and a host response with `secure_url`
"https://cdn.example/project-logos/abc123.png" resolve with exactly that
string, under destination category "project-logos". -/
theorem uploadToCloudinary_resolves_secure_url_witness :
    (uploadToCloudinary ⟨[0, 1, 2, 3, 4, 5, 6, 7, 8, 9], "image/png"⟩
        ⟨none, some ⟨"abc123", "https://cdn.example/project-logos/abc123.png"⟩⟩).settlement =
      Settlement.resolved "https://cdn.example/project-logos/abc123.png" ∧
    ∀ t ∈ (uploadToCloudinary ⟨[0, 1, 2, 3, 4, 5, 6, 7, 8, 9], "image/png"⟩
        ⟨none, some ⟨"abc123", "https://cdn.example/project-logos/abc123.png"⟩⟩).transmissions,
      t.folder = "project-logos" :=
  uploadToCloudinary_resolves_secure_url _
    ⟨"abc123", "https://cdn.example/project-logos/abc123.png"⟩ _ rfl rfl

/-- C3: when the host fails the upload, the bridge rejects with the host's
error value unchanged, resolves with no reference string, and transmits
exactly once (no retry). -/
theorem uploadToCloudinary_propagates_error (file : JSFile)
    (e : UploadApiError) (cb : HostCallback) (he : cb.error = some e) :
    (uploadToCloudinary file cb).settlement = Settlement.rejected e ∧
    (∀ u, (uploadToCloudinary file cb).settlement ≠ Settlement.resolved u) ∧
    (uploadToCloudinary file cb).transmissions.length = 1 := by
  refine ⟨?_, ?_, ?_⟩
  · simp [uploadToCloudinary, uploadCallbackActions, promiseSettle, he]
  · intro u
    simp [uploadToCloudinary, uploadCallbackActions, promiseSettle, he]
  · rfl

/-- C3 (witness): a concrete failing host response is rejected unchanged
after a single transmission. -/
theorem uploadToCloudinary_propagates_error_witness :
    (uploadToCloudinary ⟨[1], "image/png"⟩
        ⟨some ⟨"quota exceeded", 420⟩, none⟩).settlement =
      Settlement.rejected ⟨"quota exceeded", 420⟩ ∧
    (∀ u, (uploadToCloudinary ⟨[1], "image/png"⟩
        ⟨some ⟨"quota exceeded", 420⟩, none⟩).settlement ≠ Settlement.resolved u) ∧
    (uploadToCloudinary ⟨[1], "image/png"⟩
        ⟨some ⟨"quota exceeded", 420⟩, none⟩).transmissions.length = 1 :=
  uploadToCloudinary_propagates_error _ ⟨"quota exceeded", 420⟩ _ rfl

/-- C4: every invocation first copies the payload's complete byte content
into an in-memory buffer, and the byte buffer transmitted to the host is
exactly that full content — one whole-buffer transmission, no truncation. -/
theorem uploadToCloudinary_buffers_full_content (file : JSFile)
    (cb : HostCallback) :
    (uploadToCloudinary file cb).buffer = file.bytes ∧
    (uploadToCloudinary file cb).transmissions.map Transmission.buffer =
      [file.bytes] := by
  constructor <;> rfl

/-- C5: the bridge performs no size or content-type validation: for any
byte content and any declared MIME type it issues exactly one upload to
the host, and its entire observable run is independent of the declared
type. -/
theorem uploadToCloudinary_no_validation (bytes : List Nat)
    (ty ty2 : String) (cb : HostCallback) :
    (uploadToCloudinary ⟨bytes, ty⟩ cb).transmissions.length = 1 ∧
    uploadToCloudinary ⟨bytes, ty⟩ cb = uploadToCloudinary ⟨bytes, ty2⟩ cb := by
  constructor <;> rfl

/-- C6: for every fetched event list and search string, the filtered
result is exactly the events whose title or description contains the
search string case-insensitively, and filtering with the empty string
returns the full list unchanged. -/
theorem filteredEvents_spec (searchQuery : String) (events : List Event) :
    (∀ e, e ∈ filteredEvents searchQuery events ↔
      e ∈ events ∧
        (jsIncludes (jsToLowerCase e.title) (jsToLowerCase searchQuery) = true ∨
         jsIncludes (jsToLowerCase e.description) (jsToLowerCase searchQuery) = true)) ∧
    filteredEvents "" events = events := by
  constructor
  · intro e
    simp [filteredEvents, List.mem_filter, eventMatches, Bool.or_eq_true]
  · refine List.filter_eq_self.mpr ?_
    intro e _
    have h1 : jsIncludes (jsToLowerCase e.title) (jsToLowerCase "") = true :=
      listIncludes_nil _
    simp [eventMatches, h1]

/-- C6 (witness): a concrete event list filtered by a concrete query. -/
theorem filteredEvents_spec_witness :
    let ev : Event :=
      { _id := "1", title := "AI Hackathon", description := "Build things",
        startDateTime := "", endDateTime := "", eventType := "WORKSHOP",
        status := "PUBLISHED" }
    ev ∈ filteredEvents "hack" [ev] ∧ filteredEvents "" [ev] = [ev] := by
  intro ev
  refine ⟨((filteredEvents_spec "hack" [ev]).1 ev).mpr ⟨by simp, Or.inl (by decide)⟩,
    (filteredEvents_spec "" [ev]).2⟩

/-- C7: the sponsor-form schema accepts the logo attachment iff exactly
one file is supplied, its size is at most 2 * 1024 * 1024 bytes, and its
type is image/jpeg, image/jpg or image/png; and acceptance coincides with
the refinement chain producing no structured error. -/
theorem createSponsorSchema_logo_spec (files : List FileMeta) :
    (logoAccepted files = true ↔
      ∃ f, files = [f] ∧ f.size ≤ 2 * 1024 * 1024 ∧
        (f.mimeType = "image/jpeg" ∨ f.mimeType = "image/jpg" ∨
         f.mimeType = "image/png")) ∧
    (logoErrors files = [] ↔ logoAccepted files = true) := by
  refine ⟨?_, logoErrors_eq_nil_iff files⟩
  match files with
  | [] => simp [logoAccepted, logoCountOk]
  | [f] =>
    simp [logoAccepted, logoCountOk, logoSizeOk, logoTypeOk, jsLeNat,
      List.contains_cons, and_assoc]
  | f :: g :: rest =>
    simp [logoAccepted, logoCountOk]

/-- C7 (witness): a single 1-MB PNG is accepted with no structured error;
the empty file list is rejected. -/
theorem createSponsorSchema_logo_spec_witness :
    (logoAccepted [⟨1048576, "image/png"⟩] = true ↔
      ∃ f, [(⟨1048576, "image/png"⟩ : FileMeta)] = [f] ∧
        f.size ≤ 2 * 1024 * 1024 ∧
        (f.mimeType = "image/jpeg" ∨ f.mimeType = "image/jpg" ∨
         f.mimeType = "image/png")) ∧
    (logoErrors [⟨1048576, "image/png"⟩] = [] ↔
      logoAccepted [⟨1048576, "image/png"⟩] = true) :=
  createSponsorSchema_logo_spec [⟨1048576, "image/png"⟩]

/-- C8: when the DELETE request fails (non-ok response or thrown network
error) the handler leaves the events list untouched, performs no refetch,
and shows only a user-facing error toast; when the DELETE request succeeds
the handler refetches the full collection and adopts its result. -/
theorem handleDeleteConfirm_spec (refetchResp : FetchResult)
    (refetchData events : List Event) :
    handleDeleteConfirm (FetchResult.response false) refetchResp refetchData events =
      { refetched := false, events := events,
        toasts := [Toast.error "Error deleting event"],
        deleteModal := ⟨false, "", ""⟩ } ∧
    handleDeleteConfirm FetchResult.networkError refetchResp refetchData events =
      { refetched := false, events := events,
        toasts := [Toast.error "Error deleting event"],
        deleteModal := ⟨false, "", ""⟩ } ∧
    (handleDeleteConfirm (FetchResult.response true) refetchResp refetchData events).refetched = true ∧
    (handleDeleteConfirm (FetchResult.response true) refetchResp refetchData events).events =
      (fetchEvents refetchResp refetchData events).1 := by
  refine ⟨rfl, rfl, rfl, rfl⟩

/-- C9: if the host invokes the callback with a null error and an
undefined result, the access to `result.secure_url` throws inside the
callback before any settle call, so the returned promise performs no
settle action and never settles. -/
theorem uploadToCloudinary_null_result_never_settles (file : JSFile) :
    (uploadToCloudinary file ⟨none, none⟩).settleActions = [] ∧
    (uploadToCloudinary file ⟨none, none⟩).settlement = Settlement.unsettled := by
  constructor <;> rfl

/-- C10: after every completed run of the delete confirmation handler —
DELETE succeeded, failed with a non-ok response, or threw — the
delete-modal state is reset to closed with empty event id and title. -/
theorem handleDeleteConfirm_resets_modal (deleteResp refetchResp : FetchResult)
    (refetchData events : List Event) :
    (handleDeleteConfirm deleteResp refetchResp refetchData events).deleteModal =
      { isOpen := false, eventId := "", eventTitle := "" } := by
  cases deleteResp with
  | response ok => cases ok <;> rfl
  | networkError => rfl

end Lutonai
